import Mathlib

/-!
Verification of `bikeshare.py` (Explore US Bikeshare Data).

The script loads a pandas DataFrame per city, computes four groups of
statistics (popular times, popular stations, trip duration, user info),
prints them, and loops on an interactive prompt.  We embed the table as a
list of records plus the two optional columns, pandas aggregates
(`mode()[0]`, `min`, `max`, `sum`, `mean`, `value_counts`) as executable
list functions, the printing of `display_statistics` as a list of report
lines, and `main`'s control flow as a step function on a two-state machine.
-/

namespace Bikeshare

/-- A parsed start/end timestamp, keeping exactly the fields the script reads
through the pandas datetime accessors `dt.month` (1-12), `dt.dayofweek`
(0=Monday..6=Sunday) and `dt.hour` (0-23). -/
structure Timestamp where
  month : Nat
  dayofweek : Nat
  hour : Nat
  deriving DecidableEq

/-- Ranges guaranteed by the datetime accessors for any real timestamp. -/
def Timestamp.WF (ts : Timestamp) : Prop :=
  1 ≤ ts.month ∧ ts.month ≤ 12 ∧ ts.dayofweek < 7 ∧ ts.hour < 24

/-- One row of the loaded table, with the columns every city file has:
Start Time, End Time, Start Station, End Station, Trip Duration, User Type. -/
structure TripRecord where
  startTime : Timestamp
  endTime : Timestamp
  startStation : String
  endStation : String
  tripDuration : Int
  userType : String
  deriving DecidableEq

/-- A raw cell of the Birth Year column before `pd.to_numeric`: a number, a
non-numeric string, or a missing value (NaN). -/
inductive RawCell where
  | num (v : Int)
  | text (s : String)
  | missing
  deriving DecidableEq

/-- `pd.to_numeric(col, errors='coerce')` on one cell: numbers survive,
non-numeric strings and missing values become NaN (modelled as `none`). -/
def toNumeric : RawCell → Option Int
  | RawCell.num v => some v
  | RawCell.text _ => none
  | RawCell.missing => none

/-- The in-memory DataFrame: the always-present columns as rows, and the two
columns that are present only in some city files (Gender, Birth Year). -/
structure TripTable where
  rows : List TripRecord
  genderCol : Option (List String)
  birthYearCol : Option (List RawCell)
  deriving DecidableEq

/-- Number of occurrences of `a` in `l` (the frequency a mode maximizes). -/
def modeCount [DecidableEq α] (l : List α) (a : α) : Nat :=
  (l.filter (fun x => decide (x = a))).length

/-- The elements of `l` whose frequency is maximal: the multiset of values
`Series.mode` returns (each modal value, still with repetitions). -/
def modeCandidates [DecidableEq α] (l : List α) : List α :=
  l.filter (fun a => decide (∀ b ∈ l, modeCount l b ≤ modeCount l a))

/-- `series.mode()[0]`: `Series.mode` lists the most frequent values in
ascending sorted order and `[0]` takes the first, i.e. the least value of
maximal frequency; on an empty series `[0]` raises (modelled as `none`). -/
def seriesModeFirst [DecidableEq α] [LinearOrder α] (l : List α) : Option α :=
  (modeCandidates l).argmin id

/-- `series.min()` on a series with no NaN: least value, `none` if empty. -/
def seriesMin [LinearOrder α] (l : List α) : Option α :=
  l.argmin id

/-- `series.max()` on a series with no NaN: greatest value, `none` if empty. -/
def seriesMax [LinearOrder α] (l : List α) : Option α :=
  l.argmax id

/-- What it means to be the value `mode()[0]` must return: a most frequent
element of `l` that is least among the equally most frequent ones. -/
def IsFirstSortedMode [DecidableEq α] [LinearOrder α] (l : List α) (m : α) : Prop :=
  m ∈ l ∧ (∀ b ∈ l, modeCount l b ≤ modeCount l m) ∧
    ∀ b ∈ l, modeCount l b = modeCount l m → m ≤ b

/-- The derived series `df['Start Time'].dt.month`. -/
def monthCol (df : TripTable) : List Nat :=
  df.rows.map (fun r => r.startTime.month)

/-- The derived series `df['Start Time'].dt.dayofweek`. -/
def dayCol (df : TripTable) : List Nat :=
  df.rows.map (fun r => r.startTime.dayofweek)

/-- The derived series `df['Start Time'].dt.hour`. -/
def hourCol (df : TripTable) : List Nat :=
  df.rows.map (fun r => r.startTime.hour)

/-- The series `df['Start Station']`. -/
def startStationCol (df : TripTable) : List String :=
  df.rows.map (fun r => r.startStation)

/-- The series `df['End Station']`. -/
def endStationCol (df : TripTable) : List String :=
  df.rows.map (fun r => r.endStation)

/-- The synthesized series `df['Start Station'] + ' to ' + df['End Station']`,
built value by value on each row. -/
def tripCol (df : TripTable) : List String :=
  df.rows.map (fun r => r.startStation ++ " to " ++ r.endStation)

/-- The series `df['Trip Duration']`. -/
def durationCol (df : TripTable) : List Int :=
  df.rows.map (fun r => r.tripDuration)

/-- The series `df['User Type']`. -/
def userTypeCol (df : TripTable) : List String :=
  df.rows.map (fun r => r.userType)

/-- `popular_times(df)`: modes of the month, day-of-week and hour columns
derived from Start Time; the `except` branch returns `(None, None, None)`,
which happens exactly when the table is empty (`mode()[0]` raises). -/
def popular_times (df : TripTable) : Option Nat × Option Nat × Option Nat :=
  (seriesModeFirst (monthCol df),
   seriesModeFirst (dayCol df),
   seriesModeFirst (hourCol df))

/-- `popular_stations(df)`: modes of Start Station, End Station, and of the
per-row synthesized column `df['Start Station'] + ' to ' + df['End Station']`. -/
def popular_stations (df : TripTable) : Option String × Option String × Option String :=
  (seriesModeFirst (startStationCol df),
   seriesModeFirst (endStationCol df),
   seriesModeFirst (tripCol df))

/-- `trip_duration(df)`: `sum` and `mean` of the Trip Duration column, no
unit conversion.  `mean` is the arithmetic mean sum/length (as a rational). -/
def trip_duration (df : TripTable) : Int × Rat :=
  let total := (durationCol df).sum
  (total, (total : Rat) / (df.rows.length : Rat))

/-- The distinct values of `l` in order of first occurrence. -/
def distinctFirst [DecidableEq α] (l : List α) : List α :=
  l.foldl (fun acc a => if a ∈ acc then acc else acc ++ [a]) []

/-- Insert a labelled count into a list sorted by descending count. -/
def insertByCountDesc (p : String × Nat) : List (String × Nat) → List (String × Nat)
  | [] => [p]
  | q :: qs => if q.2 < p.2 then p :: q :: qs else q :: insertByCountDesc p qs

/-- `series.value_counts()`: each distinct value with its frequency, in
descending order of frequency. -/
def value_counts (l : List String) : List (String × Nat) :=
  ((distinctFirst l).map (fun v => (v, modeCount l v))).foldr insertByCountDesc []

/-- `user_info(df)`: User Type counts, Gender counts if that column exists
(`None` otherwise), and `int(min)`, `int(max)`, `int(mode()[0])` of the
Birth Year column after `pd.to_numeric(..., errors='coerce')` if that column
exists (`None, None, None` otherwise).  When the coerced column has no
numeric entry, `min`/`max` are NaN and `mode()[0]` raises, so `int(...)`
raises and the broad `except` returns five `None`s. -/
def user_info (df : TripTable) :
    Option (List (String × Nat)) × Option (List (String × Nat)) ×
      Option Int × Option Int × Option Int :=
  let user_type_counts := value_counts (userTypeCol df)
  let gender_counts := df.genderCol.map value_counts
  match df.birthYearCol with
  | none => (some user_type_counts, gender_counts, none, none, none)
  | some col =>
    let years := col.filterMap toNumeric
    match seriesMin years, seriesMax years, seriesModeFirst years with
    | some mn, some mx, some md =>
      (some user_type_counts, gender_counts, some mn, some mx, some md)
    | _, _, _ => (none, none, none, none, none)

/-- A Python value as it appears in a `print` of `display_statistics`. -/
inductive PyVal where
  | pynone
  | nat (n : Nat)
  | int (n : Int)
  | rat (q : Rat)
  | str (s : String)
  | series (entries : List (String × Nat))
  deriving DecidableEq

/-- One `print(...)` of `display_statistics`: a plain line, a section
header, a labelled value (`print("label:", v)`), or a bare value
(`print(v)`). -/
inductive ReportLine where
  | text (s : String)
  | header (s : String)
  | field (label : String) (v : PyVal)
  | value (v : PyVal)
  deriving DecidableEq

/-- Render an optional value the way `print` renders it: `None` if absent. -/
def optVal (f : α → PyVal) : Option α → PyVal
  | none => PyVal.pynone
  | some a => f a

/-- The header text of a line, if it is a section header. -/
def headerName : ReportLine → Option String
  | ReportLine.header s => some s
  | _ => none

/-- `display_statistics(df, city)` as the sequence of printed lines (ANSI
color codes dropped as cosmetic).  Only the gender counts and the three
birth-year fields are guarded by `is not None`; every other field is printed
unconditionally, showing `None` when the statistic is absent. -/
def display_statistics (df : TripTable) (city : String) : List ReportLine :=
  let pt := popular_times df
  let ps := popular_stations df
  let td := trip_duration df
  let ui := user_info df
  [ReportLine.text "Statistics Computed",
   ReportLine.text ("This is the information of " ++ city ++ ":"),
   ReportLine.header "Popular Times of Travel:",
   ReportLine.field "Most common month:" (optVal PyVal.nat pt.1),
   ReportLine.field "Most common day of week:" (optVal PyVal.nat pt.2.1),
   ReportLine.field "Most common hour of day:" (optVal PyVal.nat pt.2.2),
   ReportLine.header "Popular Stations and Trips:",
   ReportLine.field "Most common start station:" (optVal PyVal.str ps.1),
   ReportLine.field "Most common end station:" (optVal PyVal.str ps.2.1),
   ReportLine.field "Most common trip from start to end:" (optVal PyVal.str ps.2.2),
   ReportLine.header "Trip Duration:",
   ReportLine.field "Total travel time:" (PyVal.int td.1),
   ReportLine.field "Average travel time:" (PyVal.rat td.2),
   ReportLine.header "User Info:",
   ReportLine.text "Counts of each user type:",
   ReportLine.value (optVal PyVal.series ui.1)]
  ++ (match ui.2.1 with
      | none => []
      | some g => [ReportLine.text "Counts of each gender:",
                   ReportLine.value (PyVal.series g)])
  ++ (match ui.2.2.1 with
      | none => []
      | some e => [ReportLine.field "Earliest birth year:" (PyVal.int e)])
  ++ (match ui.2.2.2.1 with
      | none => []
      | some r => [ReportLine.field "Most recent birth year:" (PyVal.int r)])
  ++ (match ui.2.2.2.2 with
      | none => []
      | some c => [ReportLine.field "Most common birth year:" (PyVal.int c)])

/-- Python `str.lower()` restricted to ASCII: lower-case every character. -/
def strLower (s : String) : String :=
  String.mk (s.data.map Char.toLower)

/-- Python `str.title()` restricted to ASCII: the first letter of each
alphabetic run is upper-cased, the following letters lower-cased. -/
def titleCase (s : String) : String :=
  String.mk ((s.toList.foldl
    (fun (acc : List Char × Bool) c =>
      if c.isAlpha then
        (acc.1 ++ [if acc.2 then c.toLower else c.toUpper], true)
      else
        (acc.1 ++ [c], false))
    ([], false)).1)

/-- Outcome of `pd.read_csv` plus the datetime conversions in `load_data`:
the file is missing, some other exception is raised, or a table is loaded. -/
inductive LoadOutcome where
  | fileNotFound
  | otherError (msg : String)
  | ok (df : TripTable)
  deriving DecidableEq

/-- What `load_data` hands back: the returned table (None on failure) and
the error message it printed, if any. -/
structure LoadResult where
  table : Option TripTable
  errorReport : Option String
  deriving DecidableEq

/-- `load_data(city)`: returns the loaded table, or catches
`FileNotFoundError` and any other exception, prints a message naming
`city.title()`, and returns `None`. -/
def load_data (city : String) (outcome : LoadOutcome) : LoadResult :=
  match outcome with
  | LoadOutcome.ok df => { table := some df, errorReport := none }
  | LoadOutcome.fileNotFound =>
    { table := none,
      errorReport := some ("Error: File for " ++ titleCase city ++ " not found.") }
  | LoadOutcome.otherError e =>
    { table := none,
      errorReport :=
        some ("An error occurred while loading data for " ++ titleCase city ++ ": " ++ e) }

/-- The `CITY_DATA` dictionary mapping each city name to its CSV file. -/
def CITY_DATA : List (String × String) :=
  [("chicago", "chicago.csv"),
   ("new york city", "new_york_city.csv"),
   ("washington", "washington.csv")]

/-- `city in CITY_DATA`: membership in the dictionary's key set. -/
def validCity (city : String) : Bool :=
  (CITY_DATA.map Prod.fst).contains city

/-- The two interactive states of `main`, plus the terminal state reached by
`return`. -/
inductive DriverState where
  | selectingCity
  | confirmingContinue
  | exited
  deriving DecidableEq

/-- Effects of one prompt iteration of `main`: the next state, the city
`load_data` was called with (if it was called), whether
`display_statistics` ran, and whether an invalid-input message was printed. -/
structure StepResult where
  next : DriverState
  loaderCalledWith : Option String
  reporterCalled : Bool
  invalidReported : Bool
  deriving DecidableEq

/-- One iteration of `main`'s prompt loops.  In `selectingCity` the input is
lower-cased and looked up in `CITY_DATA`: on a hit, `load_data` runs and
`display_statistics` runs if it returned a table, then control moves to the
continue prompt; on a miss, an invalid-city message is printed and the city
prompt repeats.  In `confirmingContinue`, lower-cased "yes" goes back to the
city prompt, "no" exits, and anything else reprints the prompt.  -/
def driverStep (s : DriverState) (input : String) (env : LoadOutcome) : StepResult :=
  match s with
  | DriverState.selectingCity =>
    let city := strLower input
    if validCity city then
      match (load_data city env).table with
      | some _ =>
        { next := DriverState.confirmingContinue, loaderCalledWith := some city,
          reporterCalled := true, invalidReported := false }
      | none =>
        { next := DriverState.confirmingContinue, loaderCalledWith := some city,
          reporterCalled := false, invalidReported := false }
    else
      { next := DriverState.selectingCity, loaderCalledWith := none,
        reporterCalled := false, invalidReported := true }
  | DriverState.confirmingContinue =>
    let choice := strLower input
    if choice = "yes" then
      { next := DriverState.selectingCity, loaderCalledWith := none,
        reporterCalled := false, invalidReported := false }
    else if choice = "no" then
      { next := DriverState.exited, loaderCalledWith := none,
        reporterCalled := false, invalidReported := false }
    else
      { next := DriverState.confirmingContinue, loaderCalledWith := none,
        reporterCalled := false, invalidReported := true }
  | DriverState.exited =>
    { next := DriverState.exited, loaderCalledWith := none,
      reporterCalled := false, invalidReported := false }

/-! ### Lemmas about the pandas aggregate embeddings -/

theorem modeCandidates_ne_nil [DecidableEq α] {l : List α} (h : l ≠ []) :
    modeCandidates l ≠ [] := by
  have hargmax : l.argmax (modeCount l) ≠ none := fun hc => h (List.argmax_eq_none.mp hc)
  obtain ⟨m, hm⟩ := Option.ne_none_iff_exists'.mp hargmax
  have hmem : m ∈ l := List.argmax_mem hm
  have hmax : ∀ b ∈ l, modeCount l b ≤ modeCount l m :=
    fun b hb => List.le_of_mem_argmax hb hm
  exact List.ne_nil_of_mem (List.mem_filter.mpr ⟨hmem, decide_eq_true hmax⟩)

theorem seriesModeFirst_isSome [DecidableEq α] [LinearOrder α] {l : List α} (h : l ≠ []) :
    ∃ m, seriesModeFirst l = some m := by
  have hc : (modeCandidates l).argmin id ≠ none :=
    fun hc => modeCandidates_ne_nil h (List.argmin_eq_none.mp hc)
  exact Option.ne_none_iff_exists'.mp hc

theorem seriesModeFirst_spec [DecidableEq α] [LinearOrder α] {l : List α} {m : α}
    (h : seriesModeFirst l = some m) : IsFirstSortedMode l m := by
  have hmem : m ∈ modeCandidates l := List.argmin_mem h
  obtain ⟨hml, hdec⟩ := List.mem_filter.mp hmem
  have hmax : ∀ b ∈ l, modeCount l b ≤ modeCount l m := of_decide_eq_true hdec
  refine ⟨hml, hmax, fun b hb hbeq => ?_⟩
  have hbc : b ∈ modeCandidates l :=
    List.mem_filter.mpr ⟨hb, decide_eq_true (fun c hc => hbeq ▸ hmax c hc)⟩
  exact List.le_of_mem_argmin hbc h

theorem seriesModeFirst_dominant [DecidableEq α] [LinearOrder α] {l : List α} {x : α}
    (hx : x ∈ l) (hdom : ∀ y ∈ l, y ≠ x → modeCount l y < modeCount l x) :
    seriesModeFirst l = some x := by
  obtain ⟨m, hm⟩ := seriesModeFirst_isSome (List.ne_nil_of_mem hx)
  obtain ⟨hmem, hmax, -⟩ := seriesModeFirst_spec hm
  rcases eq_or_ne m x with rfl | hne
  · exact hm
  · exact absurd (lt_of_lt_of_le (hdom m hmem hne) (hmax x hx)) (lt_irrefl _)

theorem seriesMin_isSome [LinearOrder α] {l : List α} (h : l ≠ []) :
    ∃ m, seriesMin l = some m :=
  Option.ne_none_iff_exists'.mp (fun hc => h (List.argmin_eq_none.mp hc))

theorem seriesMin_spec [LinearOrder α] {l : List α} {m : α} (h : seriesMin l = some m) :
    m ∈ l ∧ ∀ b ∈ l, m ≤ b :=
  ⟨List.argmin_mem h, fun _ hb => List.le_of_mem_argmin hb h⟩

theorem seriesMax_isSome [LinearOrder α] {l : List α} (h : l ≠ []) :
    ∃ m, seriesMax l = some m :=
  Option.ne_none_iff_exists'.mp (fun hc => h (List.argmax_eq_none.mp hc))

theorem seriesMax_spec [LinearOrder α] {l : List α} {m : α} (h : seriesMax l = some m) :
    m ∈ l ∧ ∀ b ∈ l, b ≤ m :=
  ⟨List.argmax_mem h, fun _ hb => List.le_of_mem_argmax hb h⟩

/-! ### Concrete tables used as witness and counterexample inputs -/

/-- A June Tuesday 17:00 trip from A St to B St by a Subscriber. -/
def rowA : TripRecord :=
  { startTime := ⟨6, 2, 17⟩, endTime := ⟨6, 2, 17⟩, startStation := "A St",
    endStation := "B St", tripDuration := 10, userType := "Subscriber" }

/-- Same trip as `rowA` but 20 units long. -/
def rowB : TripRecord :=
  { rowA with tripDuration := 20 }

/-- A February Saturday 8:00 trip from C St to B St by a Customer. -/
def rowC : TripRecord :=
  { startTime := ⟨2, 5, 8⟩, endTime := ⟨2, 5, 9⟩, startStation := "C St",
    endStation := "B St", tripDuration := 30, userType := "Customer" }

/-- Three-row table with durations 10, 20, 30 and dominant month 6,
day 2, hour 17, start station A St, end station B St, trip A St to B St. -/
def dfW : TripTable :=
  { rows := [rowA, rowB, rowC], genderCol := none, birthYearCol := none }

/-! ### Claim theorems -/

/-- C1: for every non-empty Trip Table, `popular_times` returns the most
frequent calendar month, day-of-week (0=Monday) and hour-of-day (0-23) of
the Start Time column; on a tie the value first in ascending sort order is
returned, a strictly dominant value is returned exactly, and for
well-formed timestamps the three results lie in the documented ranges. -/
theorem popular_times_mode_correct (df : TripTable) (hne : df.rows ≠ []) :
    ∃ m d h, popular_times df = (some m, some d, some h) ∧
      IsFirstSortedMode (monthCol df) m ∧
      IsFirstSortedMode (dayCol df) d ∧
      IsFirstSortedMode (hourCol df) h ∧
      (∀ x ∈ monthCol df,
        (∀ y ∈ monthCol df, y ≠ x →
          modeCount (monthCol df) y < modeCount (monthCol df) x) → m = x) ∧
      (∀ x ∈ dayCol df,
        (∀ y ∈ dayCol df, y ≠ x →
          modeCount (dayCol df) y < modeCount (dayCol df) x) → d = x) ∧
      (∀ x ∈ hourCol df,
        (∀ y ∈ hourCol df, y ≠ x →
          modeCount (hourCol df) y < modeCount (hourCol df) x) → h = x) ∧
      ((∀ r ∈ df.rows, r.startTime.WF) → (1 ≤ m ∧ m ≤ 12) ∧ d < 7 ∧ h < 24) := by
  have hmne : monthCol df ≠ [] := fun hc => hne (List.map_eq_nil_iff.mp hc)
  have hdne : dayCol df ≠ [] := fun hc => hne (List.map_eq_nil_iff.mp hc)
  have hhne : hourCol df ≠ [] := fun hc => hne (List.map_eq_nil_iff.mp hc)
  obtain ⟨m, hmEq⟩ := seriesModeFirst_isSome hmne
  obtain ⟨d, hdEq⟩ := seriesModeFirst_isSome hdne
  obtain ⟨h, hhEq⟩ := seriesModeFirst_isSome hhne
  have hmS := seriesModeFirst_spec hmEq
  have hdS := seriesModeFirst_spec hdEq
  have hhS := seriesModeFirst_spec hhEq
  refine ⟨m, d, h, by simp [popular_times, hmEq, hdEq, hhEq], hmS, hdS, hhS,
    ?_, ?_, ?_, ?_⟩
  · intro x hx hdom
    have := seriesModeFirst_dominant hx hdom
    rw [hmEq] at this
    exact Option.some.inj this
  · intro x hx hdom
    have := seriesModeFirst_dominant hx hdom
    rw [hdEq] at this
    exact Option.some.inj this
  · intro x hx hdom
    have := seriesModeFirst_dominant hx hdom
    rw [hhEq] at this
    exact Option.some.inj this
  · intro hwf
    obtain ⟨rm, hrm, hrmEq⟩ := List.mem_map.mp hmS.1
    obtain ⟨rd, hrd, hrdEq⟩ := List.mem_map.mp hdS.1
    obtain ⟨rh, hrh, hrhEq⟩ := List.mem_map.mp hhS.1
    obtain ⟨h1, h2, -, -⟩ := hwf rm hrm
    obtain ⟨-, -, h3, -⟩ := hwf rd hrd
    obtain ⟨-, -, -, h4⟩ := hwf rh hrh
    exact ⟨⟨hrmEq ▸ h1, hrmEq ▸ h2⟩, hrdEq ▸ h3, hrhEq ▸ h4⟩

/-- C1 witness: on the concrete table `dfW` the dominant month 6, day 2 and
hour 17 are returned. -/
theorem popular_times_mode_correct_witness :
    popular_times dfW = (some 6, some 2, some 17) ∧
    ∃ m d h, popular_times dfW = (some m, some d, some h) ∧
      IsFirstSortedMode (monthCol dfW) m ∧
      IsFirstSortedMode (dayCol dfW) d ∧
      IsFirstSortedMode (hourCol dfW) h ∧
      (∀ x ∈ monthCol dfW,
        (∀ y ∈ monthCol dfW, y ≠ x →
          modeCount (monthCol dfW) y < modeCount (monthCol dfW) x) → m = x) ∧
      (∀ x ∈ dayCol dfW,
        (∀ y ∈ dayCol dfW, y ≠ x →
          modeCount (dayCol dfW) y < modeCount (dayCol dfW) x) → d = x) ∧
      (∀ x ∈ hourCol dfW,
        (∀ y ∈ hourCol dfW, y ≠ x →
          modeCount (hourCol dfW) y < modeCount (hourCol dfW) x) → h = x) ∧
      ((∀ r ∈ dfW.rows, r.startTime.WF) → (1 ≤ m ∧ m ≤ 12) ∧ d < 7 ∧ h < 24) :=
  ⟨by decide, popular_times_mode_correct dfW (by decide)⟩

/-- C2: for every non-empty Trip Table, `trip_duration` returns the sum of
the Trip Duration column unchanged and its arithmetic mean (result times
row count equals the sum), with no unit conversion. -/
theorem trip_duration_sum_mean (df : TripTable) (hne : df.rows ≠ []) :
    (trip_duration df).1 = (durationCol df).sum ∧
    (trip_duration df).2 * (df.rows.length : Rat) = ((durationCol df).sum : Rat) := by
  refine ⟨rfl, ?_⟩
  have hlen : (df.rows.length : Rat) ≠ 0 := by
    exact_mod_cast fun h0 => hne (List.length_eq_zero.mp h0)
  exact div_mul_cancel₀ _ hlen

/-- C2 witness: on `dfW`, whose durations are 10, 20, 30, the sum is 60 and
the mean is 20. -/
theorem trip_duration_sum_mean_witness :
    durationCol dfW = [10, 20, 30] ∧
    (trip_duration dfW).1 = 60 ∧ (trip_duration dfW).2 = 20 ∧
    ((trip_duration dfW).1 = (durationCol dfW).sum ∧
      (trip_duration dfW).2 * (dfW.rows.length : Rat) = ((durationCol dfW).sum : Rat)) :=
  ⟨by decide, by decide,
    by norm_num [trip_duration, durationCol, dfW, rowA, rowB, rowC],
    trip_duration_sum_mean dfW (by decide)⟩

/-- C3: for every non-empty Trip Table, `popular_stations` returns the most
frequent start station, end station, and trip, where the trip value of each
row is its start station, the literal " to ", and its end station
concatenated, computed row by row before the mode is taken. -/
theorem popular_stations_mode_correct (df : TripTable) (hne : df.rows ≠ []) :
    ∃ s e t, popular_stations df = (some s, some e, some t) ∧
      IsFirstSortedMode (startStationCol df) s ∧
      IsFirstSortedMode (endStationCol df) e ∧
      IsFirstSortedMode (tripCol df) t ∧
      tripCol df = df.rows.map (fun r => r.startStation ++ " to " ++ r.endStation) := by
  have hsne : startStationCol df ≠ [] := fun hc => hne (List.map_eq_nil_iff.mp hc)
  have hene : endStationCol df ≠ [] := fun hc => hne (List.map_eq_nil_iff.mp hc)
  have htne : tripCol df ≠ [] := fun hc => hne (List.map_eq_nil_iff.mp hc)
  obtain ⟨s, hsEq⟩ := seriesModeFirst_isSome hsne
  obtain ⟨e, heEq⟩ := seriesModeFirst_isSome hene
  obtain ⟨t, htEq⟩ := seriesModeFirst_isSome htne
  exact ⟨s, e, t, by simp [popular_stations, hsEq, heEq, htEq],
    seriesModeFirst_spec hsEq, seriesModeFirst_spec heEq, seriesModeFirst_spec htEq, rfl⟩

/-- C3 witness: on `dfW` the dominant start station A St, end station B St
and trip A St to B St are returned. -/
theorem popular_stations_mode_correct_witness :
    popular_stations dfW = (some "A St", some "B St", some "A St to B St") ∧
    ∃ s e t, popular_stations dfW = (some s, some e, some t) ∧
      IsFirstSortedMode (startStationCol dfW) s ∧
      IsFirstSortedMode (endStationCol dfW) e ∧
      IsFirstSortedMode (tripCol dfW) t ∧
      tripCol dfW = dfW.rows.map (fun r => r.startStation ++ " to " ++ r.endStation) := by
  have hs : seriesModeFirst (startStationCol dfW) = some "A St" :=
    seriesModeFirst_dominant (by decide) (by decide)
  have he : seriesModeFirst (endStationCol dfW) = some "B St" :=
    seriesModeFirst_dominant (by decide) (by decide)
  have ht : seriesModeFirst (tripCol dfW) = some "A St to B St" :=
    seriesModeFirst_dominant (by decide) (by decide)
  exact ⟨by simp [popular_stations, hs, he, ht],
    popular_stations_mode_correct dfW (by decide)⟩

/-- One-row table with no Gender column and a Birth Year column whose only
entry is missing: `pd.to_numeric` leaves no numeric value, `int(min)`
raises, and the broad handler makes `user_info` return five `None`s. -/
def dfC4 : TripTable :=
  { rows := [rowA], genderCol := none, birthYearCol := some [RawCell.missing] }

/-- C4 counterexample: `dfC4` has no gender column, yet `user_info` does not
return the user-type frequency counts, so the claim fails as stated: the
whole result, user-type counts included, is absent. -/
theorem user_info_no_gender_counterexample :
    dfC4.genderCol = none ∧ dfC4.rows ≠ [] ∧
    value_counts (userTypeCol dfC4) = [("Subscriber", 1)] ∧
    (user_info dfC4).1 ≠ some (value_counts (userTypeCol dfC4)) ∧
    user_info dfC4 = (none, none, none, none, none) := by
  decide

/-- C4 amended: for every Trip Table with no gender column whose Birth Year
column, when present, coerces to at least one numeric value, `user_info`
returns the explicit absent marker for the gender counts while still
returning the user-type frequency counts. -/
theorem user_info_no_gender_column (df : TripTable)
    (hg : df.genderCol = none)
    (hby : ∀ col, df.birthYearCol = some col → col.filterMap toNumeric ≠ []) :
    (user_info df).2.1 = none ∧
    (user_info df).1 = some (value_counts (userTypeCol df)) := by
  cases hcol : df.birthYearCol with
  | none => simp [user_info, hcol, hg]
  | some col =>
    obtain ⟨mn, hmn⟩ := seriesMin_isSome (hby col hcol)
    obtain ⟨mx, hmx⟩ := seriesMax_isSome (hby col hcol)
    obtain ⟨md, hmd⟩ := seriesModeFirst_isSome (hby col hcol)
    simp [user_info, hcol, hg, hmn, hmx, hmd]

/-- C4 amended witness: a one-row table with neither optional column. -/
theorem user_info_no_gender_column_witness :
    (user_info dfW).2.1 = none ∧
    (user_info dfW).1 = some (value_counts (userTypeCol dfW)) :=
  user_info_no_gender_column dfW (by decide) (fun col h => by cases h)

/-- Table with birth years 1980, 1980, 1990 and one missing entry. -/
def dfW5 : TripTable :=
  { rows := [rowA], genderCol := some ["Male", "Female", "Male"],
    birthYearCol :=
      some [RawCell.num 1980, RawCell.num 1980, RawCell.num 1990, RawCell.missing] }

/-- C5: whenever the Birth Year column is present and coerces to at least
one numeric value, `user_info` returns the minimum, maximum and most
frequent birth year over the non-missing entries only (non-numeric entries
being dropped by the coercion), together with the user-type counts; and
when the column is missing entirely all three birth-year results are
absent. -/
theorem user_info_birth_year :
    (∀ df col, df.birthYearCol = some col → col.filterMap toNumeric ≠ [] →
      ∃ mn mx md,
        (user_info df).1 = some (value_counts (userTypeCol df)) ∧
        (user_info df).2.2 = (some mn, some mx, some md) ∧
        mn ∈ col.filterMap toNumeric ∧ (∀ y ∈ col.filterMap toNumeric, mn ≤ y) ∧
        mx ∈ col.filterMap toNumeric ∧ (∀ y ∈ col.filterMap toNumeric, y ≤ mx) ∧
        IsFirstSortedMode (col.filterMap toNumeric) md) ∧
    (∀ df, df.birthYearCol = none → (user_info df).2.2 = (none, none, none)) := by
  constructor
  · intro df col hcol hnum
    obtain ⟨mn, hmn⟩ := seriesMin_isSome hnum
    obtain ⟨mx, hmx⟩ := seriesMax_isSome hnum
    obtain ⟨md, hmd⟩ := seriesModeFirst_isSome hnum
    obtain ⟨hmnMem, hmnLe⟩ := seriesMin_spec hmn
    obtain ⟨hmxMem, hmxGe⟩ := seriesMax_spec hmx
    exact ⟨mn, mx, md, by simp [user_info, hcol, hmn, hmx, hmd],
      by simp [user_info, hcol, hmn, hmx, hmd],
      hmnMem, hmnLe, hmxMem, hmxGe, seriesModeFirst_spec hmd⟩
  · intro df hcol
    simp [user_info, hcol]

/-- C5 witness: on `dfW5`, with birth years 1980, 1980, 1990 and a missing
entry, the earliest is 1980, the most recent 1990 and the most common
1980. -/
theorem user_info_birth_year_witness :
    user_info dfW5 =
      (some [("Subscriber", 1)], some [("Male", 2), ("Female", 1)],
        some 1980, some 1990, some 1980) ∧
    (∃ mn mx md,
        (user_info dfW5).1 = some (value_counts (userTypeCol dfW5)) ∧
        (user_info dfW5).2.2 = (some mn, some mx, some md) ∧
        mn ∈ [RawCell.num 1980, RawCell.num 1980, RawCell.num 1990,
          RawCell.missing].filterMap toNumeric ∧
        (∀ y ∈ [RawCell.num 1980, RawCell.num 1980, RawCell.num 1990,
          RawCell.missing].filterMap toNumeric, mn ≤ y) ∧
        mx ∈ [RawCell.num 1980, RawCell.num 1980, RawCell.num 1990,
          RawCell.missing].filterMap toNumeric ∧
        (∀ y ∈ [RawCell.num 1980, RawCell.num 1980, RawCell.num 1990,
          RawCell.missing].filterMap toNumeric, y ≤ mx) ∧
        IsFirstSortedMode ([RawCell.num 1980, RawCell.num 1980, RawCell.num 1990,
          RawCell.missing].filterMap toNumeric) md) :=
  ⟨by decide, user_info_birth_year.1 dfW5 _ rfl (by decide)⟩

/-- One-row table whose Birth Year column holds only a non-numeric string
and a missing value. -/
def dfW10 : TripTable :=
  { rows := [rowA], genderCol := some ["Male"],
    birthYearCol := some [RawCell.text "unknown", RawCell.missing] }

/-- C10: when the Birth Year column is present but coerces to no numeric
value at all, `int` of the NaN minimum raises, the broad handler fires, and
all five results of `user_info` are absent, including the user-type and
gender counts computed before the failure. -/
theorem user_info_all_absent_unparsable_birth_year (df : TripTable) (col : List RawCell)
    (hcol : df.birthYearCol = some col)
    (hnone : ∀ c ∈ col, toNumeric c = none) :
    user_info df = (none, none, none, none, none) := by
  have hnil : col.filterMap toNumeric = [] := by
    simp [List.filterMap_eq_nil_iff]
    exact hnone
  simp [user_info, hcol, hnil, seriesMin, seriesMax, seriesModeFirst, modeCandidates]

/-- C10 witness: on `dfW10`, whose Birth Year entries are a non-numeric
string and a missing value, everything is absent although the table has a
Gender column and rows. -/
theorem user_info_all_absent_unparsable_birth_year_witness :
    user_info dfW10 = (none, none, none, none, none) :=
  user_info_all_absent_unparsable_birth_year dfW10
    [RawCell.text "unknown", RawCell.missing] rfl (by decide)

/-- C6: for every city, when the dataset is missing (`FileNotFoundError`)
or any other load error occurs, `load_data` returns an absent table and
reports an error whose message names the city (title-cased); no exception
propagates, the function being total on every outcome. -/
theorem load_data_failure_absent (city : String) (outcome : LoadOutcome)
    (hfail : ∀ df, outcome ≠ LoadOutcome.ok df) :
    (load_data city outcome).table = none ∧
    ∃ pre post,
      (load_data city outcome).errorReport = some (pre ++ titleCase city ++ post) := by
  cases outcome with
  | fileNotFound => exact ⟨rfl, "Error: File for ", " not found.", rfl⟩
  | otherError e =>
    refine ⟨rfl, "An error occurred while loading data for ", ": " ++ e, ?_⟩
    show some ("An error occurred while loading data for " ++ titleCase city ++ ": " ++ e) =
      some ("An error occurred while loading data for " ++ titleCase city ++ (": " ++ e))
    rw [String.append_assoc]
  | ok df => exact absurd rfl (hfail df)

/-- C6 witness: a missing file for chicago yields no table and the error
message naming Chicago. -/
theorem load_data_failure_absent_witness :
    (load_data "chicago" LoadOutcome.fileNotFound).errorReport =
      some "Error: File for Chicago not found." ∧
    ((load_data "chicago" LoadOutcome.fileNotFound).table = none ∧
      ∃ pre post,
        (load_data "chicago" LoadOutcome.fileNotFound).errorReport =
          some (pre ++ titleCase "chicago" ++ post)) :=
  ⟨by decide, load_data_failure_absent "chicago" LoadOutcome.fileNotFound
    (fun df h => by cases h)⟩

/-- C7: the accepted city identifiers are exactly chicago, new york city
and washington, matched after lower-casing the input; on a match the loader
is invoked with that city and the driver moves to the continue prompt, and
on any other input it reports invalid input and stays in the city prompt. -/
theorem driver_city_set (input : String) (env : LoadOutcome) :
    (validCity (strLower input) = true ↔
      strLower input = "chicago" ∨ strLower input = "new york city" ∨
        strLower input = "washington") ∧
    (validCity (strLower input) = true →
      (driverStep DriverState.selectingCity input env).loaderCalledWith =
        some (strLower input) ∧
      (driverStep DriverState.selectingCity input env).next =
        DriverState.confirmingContinue) ∧
    (validCity (strLower input) = false →
      (driverStep DriverState.selectingCity input env).loaderCalledWith = none ∧
      (driverStep DriverState.selectingCity input env).invalidReported = true ∧
      (driverStep DriverState.selectingCity input env).next =
        DriverState.selectingCity) := by
  refine ⟨?_, ?_, ?_⟩
  · simp [validCity, CITY_DATA]
  · intro hv
    cases hload : (load_data (strLower input) env).table with
    | none => simp [driverStep, hv, hload]
    | some df => simp [driverStep, hv, hload]
  · intro hv
    simp [driverStep, hv]

/-- C7 witness: input Chicago (any casing) is accepted and triggers the
loader; the set membership is as listed. -/
theorem driver_city_set_witness :
    strLower "Chicago" = "chicago" ∧
    ((validCity (strLower "Chicago") = true ↔
      strLower "Chicago" = "chicago" ∨ strLower "Chicago" = "new york city" ∨
        strLower "Chicago" = "washington") ∧
    (validCity (strLower "Chicago") = true →
      (driverStep DriverState.selectingCity "Chicago"
        LoadOutcome.fileNotFound).loaderCalledWith = some (strLower "Chicago") ∧
      (driverStep DriverState.selectingCity "Chicago"
        LoadOutcome.fileNotFound).next = DriverState.confirmingContinue) ∧
    (validCity (strLower "Chicago") = false →
      (driverStep DriverState.selectingCity "Chicago"
        LoadOutcome.fileNotFound).loaderCalledWith = none ∧
      (driverStep DriverState.selectingCity "Chicago"
        LoadOutcome.fileNotFound).invalidReported = true ∧
      (driverStep DriverState.selectingCity "Chicago"
        LoadOutcome.fileNotFound).next = DriverState.selectingCity)) :=
  ⟨by decide, driver_city_set "Chicago" LoadOutcome.fileNotFound⟩

/-- C9: an invalid city never calls the loader and leaves the driver in the
city prompt; the exit state is reached only by answering no at the continue
prompt; yes there returns to the city prompt; and any other answer
re-prompts without changing state. -/
theorem driver_loop_behavior :
    (∀ input env, validCity (strLower input) = false →
      (driverStep DriverState.selectingCity input env).loaderCalledWith = none ∧
      (driverStep DriverState.selectingCity input env).next =
        DriverState.selectingCity) ∧
    (∀ s input env, (driverStep s input env).next = DriverState.exited →
      s = DriverState.exited ∨
        (s = DriverState.confirmingContinue ∧ strLower input = "no")) ∧
    (∀ input env, strLower input = "yes" →
      (driverStep DriverState.confirmingContinue input env).next =
        DriverState.selectingCity) ∧
    (∀ input env, strLower input ≠ "yes" → strLower input ≠ "no" →
      (driverStep DriverState.confirmingContinue input env).next =
        DriverState.confirmingContinue ∧
      (driverStep DriverState.confirmingContinue input env).invalidReported = true) := by
  refine ⟨?_, ?_, ?_, ?_⟩
  · intro input env hv
    simp [driverStep, hv]
  · intro s input env hnext
    cases s with
    | selectingCity =>
      exfalso
      by_cases hv : validCity (strLower input) = true
      · cases hload : (load_data (strLower input) env).table with
        | none => simp [driverStep, hv, hload] at hnext
        | some df => simp [driverStep, hv, hload] at hnext
      · simp [driverStep, Bool.eq_false_iff.mpr hv] at hnext
    | confirmingContinue =>
      by_cases hy : strLower input = "yes"
      · exfalso
        simp [driverStep, hy] at hnext
      · by_cases hn : strLower input = "no"
        · exact Or.inr ⟨rfl, hn⟩
        · exfalso
          simp [driverStep, hy, hn] at hnext
    | exited => exact Or.inl rfl
  · intro input env hy
    simp [driverStep, hy]
  · intro input env hy hn
    simp [driverStep, hy, hn]

/-- C9 witness: atlantis is rejected without calling the loader; no exits
from the continue prompt; yes returns to the city prompt; maybe re-prompts. -/
theorem driver_loop_behavior_witness :
    ((driverStep DriverState.selectingCity "atlantis"
        LoadOutcome.fileNotFound).loaderCalledWith = none ∧
      (driverStep DriverState.selectingCity "atlantis"
        LoadOutcome.fileNotFound).next = DriverState.selectingCity) ∧
    (DriverState.confirmingContinue = DriverState.exited ∨
      (DriverState.confirmingContinue = DriverState.confirmingContinue ∧
        strLower "no" = "no")) ∧
    (driverStep DriverState.confirmingContinue "yes"
      LoadOutcome.fileNotFound).next = DriverState.selectingCity ∧
    ((driverStep DriverState.confirmingContinue "maybe"
        LoadOutcome.fileNotFound).next = DriverState.confirmingContinue ∧
      (driverStep DriverState.confirmingContinue "maybe"
        LoadOutcome.fileNotFound).invalidReported = true) :=
  ⟨driver_loop_behavior.1 "atlantis" LoadOutcome.fileNotFound (by decide),
    driver_loop_behavior.2.1 DriverState.confirmingContinue "no"
      LoadOutcome.fileNotFound (by decide),
    driver_loop_behavior.2.2.1 "yes" LoadOutcome.fileNotFound (by decide),
    driver_loop_behavior.2.2.2 "maybe" LoadOutcome.fileNotFound
      (by decide) (by decide)⟩

/-- One-row table with no Gender column and an all-missing Birth Year
column, on which `user_info` returns five absent values. -/
def dfC8 : TripTable :=
  { rows := [rowA], genderCol := none, birthYearCol := some [RawCell.missing] }

/-- C8 counterexample: on `dfC8` the user-type counts statistic is absent,
yet the Reporter still prints its line, showing the None value instead of
skipping the sub-field as the claim states. -/
theorem display_statistics_skip_counterexample :
    (user_info dfC8).1 = none ∧
    ReportLine.value PyVal.pynone ∈ display_statistics dfC8 "chicago" := by
  have h : user_info dfC8 = (none, none, none, none, none) := by decide
  refine ⟨by rw [h], ?_⟩
  simp [display_statistics, h, optVal]

/-- The gender-counts label can never collide with the city-dependent
information line: the lengths differ whatever the city is. -/
theorem gender_label_ne_info_line (city : String) :
    ("Counts of each gender:" : String) ≠
      "This is the information of " ++ city ++ ":" := by
  intro h
  have hl := congrArg String.length h
  simp only [String.length_append] at hl
  have h1 : ("Counts of each gender:" : String).length = 22 := rfl
  have h2 : ("This is the information of " : String).length = 27 := rfl
  have h3 : (":" : String).length = 1 := rfl
  rw [h1, h2, h3] at hl
  omega

/-- C8 amended: for every Trip Table the Reporter does not fail, prints the
four section headers in fixed order, and prints the popular-times,
popular-stations and trip-duration sub-fields and the user-type counts
unconditionally, rendering absent values as None; only the gender counts
and the three birth-year sub-fields are skipped when absent and printed
when present. -/
theorem display_statistics_structure (df : TripTable) (city : String) :
    (display_statistics df city).filterMap headerName =
      ["Popular Times of Travel:", "Popular Stations and Trips:",
        "Trip Duration:", "User Info:"] ∧
    ReportLine.field "Most common month:" (optVal PyVal.nat (popular_times df).1)
      ∈ display_statistics df city ∧
    ReportLine.field "Most common day of week:" (optVal PyVal.nat (popular_times df).2.1)
      ∈ display_statistics df city ∧
    ReportLine.field "Most common hour of day:" (optVal PyVal.nat (popular_times df).2.2)
      ∈ display_statistics df city ∧
    ReportLine.field "Most common start station:"
      (optVal PyVal.str (popular_stations df).1) ∈ display_statistics df city ∧
    ReportLine.field "Most common end station:"
      (optVal PyVal.str (popular_stations df).2.1) ∈ display_statistics df city ∧
    ReportLine.field "Most common trip from start to end:"
      (optVal PyVal.str (popular_stations df).2.2) ∈ display_statistics df city ∧
    ReportLine.field "Total travel time:" (PyVal.int (trip_duration df).1)
      ∈ display_statistics df city ∧
    ReportLine.field "Average travel time:" (PyVal.rat (trip_duration df).2)
      ∈ display_statistics df city ∧
    ReportLine.value (optVal PyVal.series (user_info df).1)
      ∈ display_statistics df city ∧
    ((ReportLine.text "Counts of each gender:" ∈ display_statistics df city) ↔
      (user_info df).2.1 ≠ none) ∧
    ((∃ v, ReportLine.field "Earliest birth year:" v ∈ display_statistics df city) ↔
      (user_info df).2.2.1 ≠ none) ∧
    ((∃ v, ReportLine.field "Most recent birth year:" v ∈ display_statistics df city) ↔
      (user_info df).2.2.2.1 ≠ none) ∧
    ((∃ v, ReportLine.field "Most common birth year:" v ∈ display_statistics df city) ↔
      (user_info df).2.2.2.2 ≠ none) := by
  rcases hui : user_info df with ⟨utc, gc, e, r, c⟩
  cases gc <;> cases e <;> cases r <;> cases c <;>
    simp [display_statistics, hui, optVal, headerName, gender_label_ne_info_line city]

/-- C8 amended witness: the structure theorem applied to `dfW5`, a table
whose gender and birth-year statistics are all present. -/
theorem display_statistics_structure_witness :
    (display_statistics dfW5 "chicago").filterMap headerName =
      ["Popular Times of Travel:", "Popular Stations and Trips:",
        "Trip Duration:", "User Info:"] ∧
    ReportLine.field "Most common month:"
      (optVal PyVal.nat (popular_times dfW5).1) ∈ display_statistics dfW5 "chicago" ∧
    ReportLine.field "Most common day of week:"
      (optVal PyVal.nat (popular_times dfW5).2.1) ∈ display_statistics dfW5 "chicago" ∧
    ReportLine.field "Most common hour of day:"
      (optVal PyVal.nat (popular_times dfW5).2.2) ∈ display_statistics dfW5 "chicago" ∧
    ReportLine.field "Most common start station:"
      (optVal PyVal.str (popular_stations dfW5).1) ∈ display_statistics dfW5 "chicago" ∧
    ReportLine.field "Most common end station:"
      (optVal PyVal.str (popular_stations dfW5).2.1) ∈ display_statistics dfW5 "chicago" ∧
    ReportLine.field "Most common trip from start to end:"
      (optVal PyVal.str (popular_stations dfW5).2.2) ∈ display_statistics dfW5 "chicago" ∧
    ReportLine.field "Total travel time:"
      (PyVal.int (trip_duration dfW5).1) ∈ display_statistics dfW5 "chicago" ∧
    ReportLine.field "Average travel time:"
      (PyVal.rat (trip_duration dfW5).2) ∈ display_statistics dfW5 "chicago" ∧
    ReportLine.value (optVal PyVal.series (user_info dfW5).1)
      ∈ display_statistics dfW5 "chicago" ∧
    ((ReportLine.text "Counts of each gender:" ∈ display_statistics dfW5 "chicago") ↔
      (user_info dfW5).2.1 ≠ none) ∧
    ((∃ v, ReportLine.field "Earliest birth year:" v
        ∈ display_statistics dfW5 "chicago") ↔ (user_info dfW5).2.2.1 ≠ none) ∧
    ((∃ v, ReportLine.field "Most recent birth year:" v
        ∈ display_statistics dfW5 "chicago") ↔ (user_info dfW5).2.2.2.1 ≠ none) ∧
    ((∃ v, ReportLine.field "Most common birth year:" v
        ∈ display_statistics dfW5 "chicago") ↔ (user_info dfW5).2.2.2.2 ≠ none) :=
  display_statistics_structure dfW5 "chicago"

end Bikeshare
